import Mathlib

/-!
Shallow embedding of the MonitorPro dashboard core: the threshold
evaluator, the synthetic metric-series generator, and the dashboard
state (alerts, thresholds, panel visibility) with its mutator
operations.  Randomness is modelled by an explicit stream of draws:
`getRandomValue lo hi` consumes one stream element and returns
`lo + (element mod (hi - lo + 1))`, which realises exactly the integer
values the source's `Math.floor(Math.random() * (max - min + 1)) + min`
can produce when `min ≤ max`.
-/

/-- Tri-state classification used by the threshold evaluator. -/
inductive Status where
  | normal
  | warning
  | critical
deriving DecidableEq

/-- Source `getStatusColor`: value against a warning/critical threshold
pair, critical check first. -/
def getStatusColor (value warningThreshold criticalThreshold : Int) : String :=
  if value ≥ criticalThreshold then "rgb(239, 68, 68)"
  else if value ≥ warningThreshold then "rgb(234, 179, 8)"
  else "rgb(34, 197, 94)"

/-- Source `getStatusClass`: same branch structure as `getStatusColor`
but returning CSS class names. -/
def getStatusClass (value warningThreshold criticalThreshold : Int) : String :=
  if value ≥ criticalThreshold then "bg-red-500"
  else if value ≥ warningThreshold then "bg-yellow-500"
  else "bg-green-500"

/-- Spec-side definition (for the refinement comparison in C1): the
contract `classify(value, warning, critical)` as the spec words it:
value ≥ critical → Critical; else value ≥ warning → Warning; else
Normal. -/
def classifySpec (value warning critical : Int) : Status :=
  if value ≥ critical then Status.critical
  else if value ≥ warning then Status.warning
  else Status.normal

/-- The display color the source associates with each classification. -/
def colorOfStatus : Status → String
  | Status.critical => "rgb(239, 68, 68)"
  | Status.warning => "rgb(234, 179, 8)"
  | Status.normal => "rgb(34, 197, 94)"

/-- The CSS class the source associates with each classification. -/
def classOfStatus : Status → String
  | Status.critical => "bg-red-500"
  | Status.warning => "bg-yellow-500"
  | Status.normal => "bg-green-500"

/-- A stream of raw random draws together with a cursor. -/
structure Rng where
  seq : Nat → Nat
  idx : Nat

/-- Source `getRandomValue(min, max)`: one bounded draw.  The raw
stream element is reduced mod the span `max - min + 1`, so for
`min ≤ max` the result ranges over exactly `[min, max]`, as in the
source. -/
def getRandomValue (lo hi : Int) (r : Rng) : Int × Rng :=
  (lo + Int.ofNat (r.seq r.idx % (hi - lo + 1).toNat), ⟨r.seq, r.idx + 1⟩)

/-- Source `ServerMetric` sample record. -/
structure ServerMetric where
  timestamp : Int
  cpu : Int
  memory : Int
  disk : Int
  temperature : Int
  network : Int
  errors : Int
  users : Int
  responseTime : Int
deriving DecidableEq

/-- The mutable base values the generator walks across samples. -/
structure BaseValues where
  cpu : Int
  memory : Int
  disk : Int
  temp : Int
  network : Int
  errors : Int
  users : Int
  responseTime : Int

/-- Point count and inter-sample interval (ms) selected by the
source's `switch (timeRange)` — unrecognized keys take the default
24-point / 1-hour policy. -/
def rangePolicy (timeRange : String) : Nat × Int :=
  if timeRange = "1h" then (60, 60 * 1000)
  else if timeRange = "24h" then (24, 60 * 60 * 1000)
  else if timeRange = "7d" then (7, 24 * 60 * 60 * 1000)
  else if timeRange = "30d" then (30, 24 * 60 * 60 * 1000)
  else (24, 60 * 60 * 1000)

/-- The generator's `for` loop: at index `i` with `fuel` iterations
left, push one clamped sample (with the cpu/memory spike when
`i = spikePoint`) and then drift the base values, consuming draws in
the source's evaluation order. -/
def genLoop (now interval : Int) (points : Nat) (spikePoint : Int) :
    Nat → Nat → BaseValues → Rng → List ServerMetric
  | _, 0, _, _ => []
  | i, Nat.succ fuel, b, r =>
    let p1 := getRandomValue (-5) 5 r
    let p2 := if Int.ofNat i = spikePoint then getRandomValue 20 40 p1.2 else ((0 : Int), p1.2)
    let p3 := if Int.ofNat i = spikePoint then getRandomValue 15 30 p2.2 else ((0 : Int), p2.2)
    let p4 := getRandomValue (-2) 2 p3.2
    let p5 := getRandomValue (-3) 3 p4.2
    let p6 := getRandomValue (-10) 10 p5.2
    let p7 := getRandomValue (-2) 3 p6.2
    let p8 := getRandomValue (-20) 20 p7.2
    let p9 := getRandomValue (-50) 50 p8.2
    let sample : ServerMetric :=
      { timestamp := now - (Int.ofNat points - Int.ofNat i - 1) * interval
        cpu := min 100 (max 0 (b.cpu + p1.1 + p2.1))
        memory := min 100 (max 0 (b.memory + p1.1 + p3.1))
        disk := min 100 (max 0 (b.disk + p4.1))
        temperature := min 50 (max 15 (b.temp + p5.1))
        network := min 100 (max 0 (b.network + p6.1))
        errors := max 0 (b.errors + p7.1)
        users := max 0 (b.users + p8.1)
        responseTime := max 50 (b.responseTime + p9.1) }
    let q1 := getRandomValue (-2) 2 p9.2
    let q2 := getRandomValue (-1) 2 q1.2
    let q3 := getRandomValue 0 1 q2.2
    let q4 := getRandomValue (-1) 1 q3.2
    let q5 := getRandomValue (-5) 5 q4.2
    let q6 := getRandomValue (-1) 1 q5.2
    let q7 := getRandomValue (-10) 10 q6.2
    let q8 := getRandomValue (-20) 20 q7.2
    let b2 : BaseValues :=
      { cpu := b.cpu + q1.1
        memory := b.memory + q2.1
        disk := b.disk + q3.1
        temp := b.temp + q4.1
        network := b.network + q5.1
        errors := b.errors + q6.1
        users := b.users + q7.1
        responseTime := b.responseTime + q8.1 }
    sample :: genLoop now interval points spikePoint (i + 1) fuel b2 q8.2

/-- Source `generateMockData(timeRange)`: pick the range policy, seed
the base values from bounded draws, pick a spike position, then run
the loop.  `now` is the clock reading at entry. -/
def generateMockData (timeRange : String) (now : Int) (r0 : Rng) : List ServerMetric :=
  let pi := rangePolicy timeRange
  let c1 := getRandomValue 30 60 r0
  let c2 := getRandomValue 40 70 c1.2
  let c3 := getRandomValue 50 80 c2.2
  let c4 := getRandomValue 20 30 c3.2
  let c5 := getRandomValue 30 70 c4.2
  let c6 := getRandomValue 0 10 c5.2
  let c7 := getRandomValue 50 200 c6.2
  let c8 := getRandomValue 100 500 c7.2
  let c9 := getRandomValue 0 (Int.ofNat pi.1 - 1) c8.2
  let b : BaseValues :=
    { cpu := c1.1, memory := c2.1, disk := c3.1, temp := c4.1
      network := c5.1, errors := c6.1, users := c7.1, responseTime := c8.1 }
  genLoop now pi.2 pi.1 c9.1 0 pi.1 b c9.2

/-- Alert severity levels. -/
inductive Severity where
  | low
  | medium
  | high
deriving DecidableEq

/-- Source `Alert` record; timestamps are epoch milliseconds. -/
structure Alert where
  id : String
  timestamp : Int
  severity : Severity
  source : String
  description : String
  acknowledged : Bool
  dismissed : Bool
deriving DecidableEq

/-- One warning/critical threshold pair. -/
structure ThresholdPair where
  warning : Int
  critical : Int
deriving DecidableEq

/-- Source `Thresholds`: a pair per metric kind. -/
structure Thresholds where
  cpu : ThresholdPair
  memory : ThresholdPair
  disk : ThresholdPair
  temperature : ThresholdPair
  network : ThresholdPair
  errors : ThresholdPair
deriving DecidableEq

/-- The metric kinds carrying a threshold pair (`keyof Thresholds`). -/
inductive ThresholdKey where
  | cpu
  | memory
  | disk
  | temperature
  | network
  | errors
deriving DecidableEq

/-- The two threshold levels (`"warning" | "critical"`). -/
inductive ThresholdLevel where
  | warning
  | critical
deriving DecidableEq

/-- Read one metric's pair out of a `Thresholds` record. -/
def getPair (t : Thresholds) : ThresholdKey → ThresholdPair
  | ThresholdKey.cpu => t.cpu
  | ThresholdKey.memory => t.memory
  | ThresholdKey.disk => t.disk
  | ThresholdKey.temperature => t.temperature
  | ThresholdKey.network => t.network
  | ThresholdKey.errors => t.errors

/-- Read one level out of a pair. -/
def getLevel (p : ThresholdPair) : ThresholdLevel → Int
  | ThresholdLevel.warning => p.warning
  | ThresholdLevel.critical => p.critical

/-- `{ ...pair, [level]: value }` from the source's update. -/
def setPairLevel (p : ThresholdPair) : ThresholdLevel → Int → ThresholdPair
  | ThresholdLevel.warning, v => { p with warning := v }
  | ThresholdLevel.critical, v => { p with critical := v }

/-- `{ ...thresholds, [key]: { ...thresholds[key], [level]: value } }`. -/
def setThresholds (t : Thresholds) : ThresholdKey → ThresholdLevel → Int → Thresholds
  | ThresholdKey.cpu, l, v => { t with cpu := setPairLevel t.cpu l v }
  | ThresholdKey.memory, l, v => { t with memory := setPairLevel t.memory l v }
  | ThresholdKey.disk, l, v => { t with disk := setPairLevel t.disk l v }
  | ThresholdKey.temperature, l, v => { t with temperature := setPairLevel t.temperature l v }
  | ThresholdKey.network, l, v => { t with network := setPairLevel t.network l v }
  | ThresholdKey.errors, l, v => { t with errors := setPairLevel t.errors l v }

/-- The aggregate provider state of the dashboard context. -/
structure DashboardState where
  darkMode : Bool
  timeRange : String
  showSidebar : Bool
  alerts : List Alert
  showNotifications : Bool
  showSettings : Bool
  expandedWidget : Option String
  activeSidebarItem : String
  showServersPanel : Bool
  showAlertsPanel : Bool
  showUsersPanel : Bool
  showReportsPanel : Bool
  isLandingPage : Bool
  thresholds : Thresholds
deriving DecidableEq

/-- Source `generateMockAlerts()`, with `now` the clock reading. -/
def generateMockAlerts (now : Int) : List Alert :=
  [ { id := "alert-001", timestamp := now - 5 * 60 * 1000, severity := Severity.high
      source := "Web Server 1", description := "CPU usage exceeded 90% for 5 minutes"
      acknowledged := false, dismissed := false }
  , { id := "alert-002", timestamp := now - 15 * 60 * 1000, severity := Severity.medium
      source := "API Server", description := "Memory usage at 75%, approaching threshold"
      acknowledged := true, dismissed := false }
  , { id := "alert-003", timestamp := now - 45 * 60 * 1000, severity := Severity.low
      source := "Database Replica", description := "Replication lag increased to 5 seconds"
      acknowledged := false, dismissed := false }
  , { id := "alert-004", timestamp := now - 120 * 60 * 1000, severity := Severity.high
      source := "Cache Server", description := "Service restarted unexpectedly"
      acknowledged := false, dismissed := false }
  , { id := "alert-005", timestamp := now - 180 * 60 * 1000, severity := Severity.high
      source := "Backup Server", description := "Server unreachable, backup process failed"
      acknowledged := true, dismissed := false } ]

/-- The default threshold table the provider starts with. -/
def defaultThresholds : Thresholds :=
  { cpu := { warning := 70, critical := 90 }
    memory := { warning := 70, critical := 90 }
    disk := { warning := 70, critical := 90 }
    temperature := { warning := 30, critical := 40 }
    network := { warning := 80, critical := 95 }
    errors := { warning := 5, critical := 15 } }

/-- The `useState` initial values of `DashboardProvider`. -/
def initState (now : Int) : DashboardState :=
  { darkMode := false
    timeRange := "24h"
    showSidebar := true
    alerts := generateMockAlerts now
    showNotifications := false
    showSettings := false
    expandedWidget := none
    activeSidebarItem := "dashboard"
    showServersPanel := false
    showAlertsPanel := false
    showUsersPanel := false
    showReportsPanel := false
    isLandingPage := true
    thresholds := defaultThresholds }

/-- Source `dismissAlert(id)`: map over the alert list, setting the
dismissed flag on the matching alert. -/
def dismissAlert (id : String) (s : DashboardState) : DashboardState :=
  { s with alerts := s.alerts.map (fun a => if a.id = id then { a with dismissed := true } else a) }

/-- Source `acknowledgeAlert(id)`. -/
def acknowledgeAlert (id : String) (s : DashboardState) : DashboardState :=
  { s with alerts := s.alerts.map (fun a => if a.id = id then { a with acknowledged := true } else a) }

/-- Source `updateThreshold(key, level, value)`. -/
def updateThreshold (key : ThresholdKey) (level : ThresholdLevel) (value : Int)
    (s : DashboardState) : DashboardState :=
  { s with thresholds := setThresholds s.thresholds key level value }

/-- The filtered view `AlertsPanel` renders: alerts not dismissed. -/
def activeAlerts (s : DashboardState) : List Alert :=
  s.alerts.filter (fun a => !a.dismissed)

/-- Derived `notificationCount`: alerts neither acknowledged nor
dismissed. -/
def notificationCount (s : DashboardState) : Nat :=
  (s.alerts.filter (fun a => !a.acknowledged && !a.dismissed)).length

/-- Source `toggleServersPanel`: flip the flag; when turning it on,
force the other three panels off. -/
def toggleServersPanel (s : DashboardState) : DashboardState :=
  if s.showServersPanel then { s with showServersPanel := false }
  else { s with showServersPanel := true, showAlertsPanel := false
                showUsersPanel := false, showReportsPanel := false }

/-- Source `toggleAlertsPanel`. -/
def toggleAlertsPanel (s : DashboardState) : DashboardState :=
  if s.showAlertsPanel then { s with showAlertsPanel := false }
  else { s with showAlertsPanel := true, showServersPanel := false
                showUsersPanel := false, showReportsPanel := false }

/-- Source `toggleUsersPanel`. -/
def toggleUsersPanel (s : DashboardState) : DashboardState :=
  if s.showUsersPanel then { s with showUsersPanel := false }
  else { s with showUsersPanel := true, showServersPanel := false
                showAlertsPanel := false, showReportsPanel := false }

/-- Source `toggleReportsPanel`. -/
def toggleReportsPanel (s : DashboardState) : DashboardState :=
  if s.showReportsPanel then { s with showReportsPanel := false }
  else { s with showReportsPanel := true, showServersPanel := false
                showAlertsPanel := false, showUsersPanel := false }

/-- Every mutation the dashboard context exposes (plus the timer-driven
alert injection, which prepends a fresh alert). -/
inductive Event where
  | toggleDarkMode
  | setTimeRange (range : String)
  | toggleSidebar
  | dismiss (id : String)
  | acknowledge (id : String)
  | toggleNotifications
  | toggleSettings
  | update (key : ThresholdKey) (level : ThresholdLevel) (value : Int)
  | setExpandedWidget (w : Option String)
  | setActiveSidebarItem (item : String)
  | servers
  | alertsP
  | users
  | reports
  | setIsLandingPage (v : Bool)
  | injectAlert (a : Alert)

/-- Apply one event to the provider state. -/
def applyEvent : Event → DashboardState → DashboardState
  | Event.toggleDarkMode, s => { s with darkMode := !s.darkMode }
  | Event.setTimeRange range, s => { s with timeRange := range }
  | Event.toggleSidebar, s => { s with showSidebar := !s.showSidebar }
  | Event.dismiss id, s => dismissAlert id s
  | Event.acknowledge id, s => acknowledgeAlert id s
  | Event.toggleNotifications, s => { s with showNotifications := !s.showNotifications }
  | Event.toggleSettings, s => { s with showSettings := !s.showSettings }
  | Event.update k l v, s => updateThreshold k l v s
  | Event.setExpandedWidget w, s => { s with expandedWidget := w }
  | Event.setActiveSidebarItem item, s => { s with activeSidebarItem := item }
  | Event.servers, s => toggleServersPanel s
  | Event.alertsP, s => toggleAlertsPanel s
  | Event.users, s => toggleUsersPanel s
  | Event.reports, s => toggleReportsPanel s
  | Event.setIsLandingPage v, s => { s with isLandingPage := v }
  | Event.injectAlert a, s => { s with alerts := a :: s.alerts }

/-- Run a sequence of events from a state. -/
def applyEvents (evs : List Event) (s : DashboardState) : DashboardState :=
  evs.foldl (fun t e => applyEvent e t) s

/-- Number of visible panels in the right-hand exclusion group. -/
def panelCount (s : DashboardState) : Nat :=
  (cond s.showServersPanel 1 0) + (cond s.showAlertsPanel 1 0)
    + (cond s.showUsersPanel 1 0) + (cond s.showReportsPanel 1 0)

/-- The shape claim C3 asserts of a generated series: `n` samples, the
`j`-th timestamped `n - 1 - j` intervals before `now` — hence
consecutive samples `interval` apart and the last one at `now`. -/
def sampleSpec (d : List ServerMetric) (now : Int) (n : Nat) (interval : Int) : Prop :=
  d.length = n ∧
  (∀ j, j < n →
    (d[j]?).map (fun m => m.timestamp) = some (now - Int.ofNat (n - 1 - j) * interval)) ∧
  (∀ j x y, d[j]? = some x → d[j + 1]? = some y → y.timestamp = x.timestamp + interval) ∧
  (∀ x, d[n - 1]? = some x → x.timestamp = now)

/-- Draw stream whose every element is 0: each bounded draw lands on
its lower endpoint. -/
def rng0 : Rng := ⟨fun _ => 0, 0⟩

/-- Draw stream whose every raw element is one less than the least
common multiple of every span the generator uses, so each bounded draw
lands on its upper endpoint. -/
def rngMax : Rng := ⟨fun _ => 2441963298981359, 0⟩

/-- Fallback sample for list indexing in concrete computations. -/
def mdefault : ServerMetric := ⟨0, 0, 0, 0, 0, 0, 0, 0, 0⟩

/-- First sample of a concrete 7-day generation run. -/
def sample7 : ServerMetric := (generateMockData "7d" 0 rng0).getD 0 mdefault

/-- Fourth sample of a concrete 24-hour all-max generation run; its
error count exceeds the default critical threshold 15. -/
def sampleMax : ServerMetric := (generateMockData "24h" 0 rngMax).getD 3 mdefault

/-- The first mock alert (clock reading 0), used in concrete instances. -/
def alertA : Alert :=
  { id := "alert-001", timestamp := -300000, severity := Severity.high
    source := "Web Server 1", description := "CPU usage exceeded 90% for 5 minutes"
    acknowledged := false, dismissed := false }

/-- Claim C1: for every value and warning/critical pair the evaluator
classifies value ≥ critical as Critical (taking precedence on ties or
when warning ≤ critical is violated), else value ≥ warning as Warning,
else Normal; `getStatusColor` and `getStatusClass` return the
red/yellow/green result of this same rule. -/
theorem classify_contract (v w c : Int) :
    (c ≤ v → classifySpec v w c = Status.critical) ∧
    (v < c → w ≤ v → classifySpec v w c = Status.warning) ∧
    (v < c → v < w → classifySpec v w c = Status.normal) ∧
    getStatusColor v w c = colorOfStatus (classifySpec v w c) ∧
    getStatusClass v w c = classOfStatus (classifySpec v w c) := by
  refine ⟨fun h => ?_, fun h1 h2 => ?_, fun h1 h2 => ?_, ?_, ?_⟩
  · unfold classifySpec
    rw [if_pos (by omega)]
  · unfold classifySpec
    rw [if_neg (by omega), if_pos (by omega)]
  · unfold classifySpec
    rw [if_neg (by omega), if_neg (by omega)]
  · unfold classifySpec getStatusColor
    split_ifs <;> rfl
  · unfold classifySpec getStatusClass
    split_ifs <;> rfl

/-- Concrete instance of claim C1's theorem: a tie with an inverted
threshold pair still classifies Critical, and a small value Normal. -/
theorem classify_contract_instance :
    classifySpec 5 3 5 = Status.critical ∧ classifySpec 2 3 5 = Status.normal ∧
      getStatusColor 5 3 5 = colorOfStatus (classifySpec 5 3 5) :=
  ⟨(classify_contract 5 3 5).1 (by decide), (classify_contract 2 3 5).2.2.1 (by decide) (by decide),
    (classify_contract 5 3 5).2.2.2.1⟩

/-- Claim C5 counterexample: with v = 5, w = 10, c = 3 we have v < w
yet the evaluator returns Critical (red), not Normal (green), because
the critical check runs first. -/
theorem classify_below_warning_cex :
    ((5 : Int) < 10) ∧ classifySpec 5 10 3 ≠ Status.normal ∧
      getStatusColor 5 10 3 ≠ "rgb(34, 197, 94)" := by
  refine ⟨by decide, by decide, by decide⟩

/-- Claim C5 (amended): for every value below both the warning and the
critical threshold, the evaluator returns Normal / the green color. -/
theorem classify_below_warning (v w c : Int) (hw : v < w) (hc : v < c) :
    classifySpec v w c = Status.normal ∧ getStatusColor v w c = "rgb(34, 197, 94)" := by
  constructor
  · unfold classifySpec
    split_ifs <;> first | rfl | omega
  · unfold getStatusColor
    split_ifs <;> first | rfl | omega

/-- Concrete instance of claim C5's amended theorem. -/
theorem classify_below_warning_instance :
    classifySpec 2 5 7 = Status.normal ∧ getStatusColor 2 5 7 = "rgb(34, 197, 94)" :=
  classify_below_warning 2 5 7 (by decide) (by decide)

/-- The loop emits exactly as many samples as it has iterations left. -/
theorem genLoop_length (now interval : Int) (points : Nat) (sp : Int) :
    ∀ (fuel i : Nat) (b : BaseValues) (r : Rng),
      (genLoop now interval points sp i fuel b r).length = fuel := by
  intro fuel
  induction fuel with
  | zero => intro i b r; rfl
  | succ n ih =>
    intro i b r
    simp only [genLoop, List.length_cons]
    rw [ih]

/-- Timestamp of the `j`-th sample the loop emits when started at
index `i`: `points - (i + j) - 1` intervals before `now`. -/
theorem genLoop_ts (now interval : Int) (points : Nat) (sp : Int) :
    ∀ (fuel i j : Nat) (b : BaseValues) (r : Rng), j < fuel →
      ((genLoop now interval points sp i fuel b r)[j]?).map (fun m => m.timestamp)
        = some (now - (Int.ofNat points - Int.ofNat (i + j) - 1) * interval) := by
  intro fuel
  induction fuel with
  | zero => intro i j b r h; exact absurd h (Nat.not_lt_zero j)
  | succ n ih =>
    intro i j b r h
    cases j with
    | zero =>
      simp [genLoop]
    | succ k =>
      simp only [genLoop, List.getElem?_cons_succ]
      rw [ih (i + 1) k _ _ (by omega)]
      have hik : i + 1 + k = i + (k + 1) := by omega
      rw [hik]

/-- Every range policy selects a positive point count. -/
theorem rangePolicy_pos (tr : String) : 0 < (rangePolicy tr).1 := by
  unfold rangePolicy
  split_ifs <;> norm_num

/-- The generated series always satisfies `sampleSpec` for the point
count and interval its range key selects. -/
theorem generateMockData_sampleSpec (tr : String) (now : Int) (r : Rng) :
    sampleSpec (generateMockData tr now r) now (rangePolicy tr).1 (rangePolicy tr).2 := by
  have hlen : (generateMockData tr now r).length = (rangePolicy tr).1 :=
    genLoop_length _ _ _ _ _ _ _ _
  have hts : ∀ j, j < (rangePolicy tr).1 →
      ((generateMockData tr now r)[j]?).map (fun m => m.timestamp)
        = some (now - Int.ofNat ((rangePolicy tr).1 - 1 - j) * (rangePolicy tr).2) := by
    intro j hj
    have h : ((generateMockData tr now r)[j]?).map (fun m => m.timestamp)
        = some (now - (Int.ofNat (rangePolicy tr).1 - Int.ofNat (0 + j) - 1) * (rangePolicy tr).2) :=
      genLoop_ts now _ _ _ _ 0 j _ _ hj
    have harith : Int.ofNat (rangePolicy tr).1 - Int.ofNat (0 + j) - 1
        = Int.ofNat ((rangePolicy tr).1 - 1 - j) := by
      simp only [Int.ofNat_eq_natCast]
      omega
    rw [harith] at h
    exact h
  refine ⟨hlen, hts, ?_, ?_⟩
  · intro j x y hx hy
    have hjlen : j + 1 < (generateMockData tr now r).length := (List.getElem?_eq_some.mp hy).1
    have hj1 : j + 1 < (rangePolicy tr).1 := by omega
    have h1 := hts j (by omega)
    have h2 := hts (j + 1) (by omega)
    rw [hx] at h1
    rw [hy] at h2
    simp only [Option.map_some'] at h1 h2
    have hxts : x.timestamp = now - Int.ofNat ((rangePolicy tr).1 - 1 - j) * (rangePolicy tr).2 :=
      Option.some.inj h1
    have hyts : y.timestamp
        = now - Int.ofNat ((rangePolicy tr).1 - 1 - (j + 1)) * (rangePolicy tr).2 :=
      Option.some.inj h2
    rw [hxts, hyts]
    have hk : (rangePolicy tr).1 - 1 - j = ((rangePolicy tr).1 - 1 - (j + 1)) + 1 := by omega
    rw [hk]
    simp only [Int.ofNat_eq_natCast]
    push_cast
    ring
  · intro x hx
    have hn0 : 0 < (rangePolicy tr).1 := rangePolicy_pos tr
    have h := hts ((rangePolicy tr).1 - 1) (by omega)
    rw [hx] at h
    simp only [Option.map_some'] at h
    have hz : (rangePolicy tr).1 - 1 - ((rangePolicy tr).1 - 1) = 0 := by omega
    rw [hz] at h
    have := Option.some.inj h
    simpa using this

/-- Claim C3: generate("24h") returns exactly 24 samples spaced 1 hour
apart with the last sample at the current time; "1h" gives 60 samples
1 minute apart; "7d" gives 7 samples 1 day apart; "30d" gives 30
samples 1 day apart; any other key takes the 24h policy. -/
theorem generateMockData_range_policy (now : Int) (r : Rng) (tr : String) :
    (tr = "1h" → sampleSpec (generateMockData tr now r) now 60 60000) ∧
    (tr = "24h" → sampleSpec (generateMockData tr now r) now 24 3600000) ∧
    (tr = "7d" → sampleSpec (generateMockData tr now r) now 7 86400000) ∧
    (tr = "30d" → sampleSpec (generateMockData tr now r) now 30 86400000) ∧
    (tr ≠ "1h" → tr ≠ "24h" → tr ≠ "7d" → tr ≠ "30d" →
      sampleSpec (generateMockData tr now r) now 24 3600000) := by
  have h := generateMockData_sampleSpec tr now r
  refine ⟨fun h1 => ?_, fun h1 => ?_, fun h1 => ?_, fun h1 => ?_, fun h1 h2 h3 h4 => ?_⟩
  · subst h1; simpa [rangePolicy] using h
  · subst h1; simpa [rangePolicy] using h
  · subst h1; simpa [rangePolicy] using h
  · subst h1; simpa [rangePolicy] using h
  · simpa [rangePolicy, h1, h2, h3, h4] using h

/-- Concrete instance of claim C3's theorem: at clock 0 with the
all-zero draw stream, the 24h run has 24 samples whose first timestamp
is 23 hours before now, and an unrecognized key takes the same
policy. -/
theorem generateMockData_range_policy_instance :
    (generateMockData "24h" 0 rng0).length = 24 ∧
      ((generateMockData "24h" 0 rng0)[0]?).map (fun m => m.timestamp) = some (-82800000) ∧
      (generateMockData "weird" 0 rng0).length = 24 := by
  have h24 := (generateMockData_range_policy 0 rng0 "24h").2.1 rfl
  have hw := (generateMockData_range_policy 0 rng0 "weird").2.2.2.2
    (by decide) (by decide) (by decide) (by decide)
  refine ⟨h24.1, ?_, hw.1⟩
  have := h24.2.1 0 (by norm_num)
  simpa using this

/-- Every sample the loop emits satisfies the clamp bounds: the four
percentage fields in [0, 100], temperature in [15, 50], errors and
users at least 0, response time at least 50. -/
theorem genLoop_bounds (now interval : Int) (points : Nat) (sp : Int) :
    ∀ (fuel i : Nat) (b : BaseValues) (r : Rng) (m : ServerMetric),
      m ∈ genLoop now interval points sp i fuel b r →
      0 ≤ m.cpu ∧ m.cpu ≤ 100 ∧ 0 ≤ m.memory ∧ m.memory ≤ 100 ∧
        0 ≤ m.disk ∧ m.disk ≤ 100 ∧ 15 ≤ m.temperature ∧ m.temperature ≤ 50 ∧
        0 ≤ m.network ∧ m.network ≤ 100 ∧ 0 ≤ m.errors ∧ 0 ≤ m.users ∧
        50 ≤ m.responseTime := by
  intro fuel
  induction fuel with
  | zero => intro i b r m hm; simp [genLoop] at hm
  | succ n ih =>
    intro i b r m hm
    rw [genLoop] at hm
    rcases List.mem_cons.mp hm with h | h
    · subst h
      refine ⟨le_min (by norm_num) (le_max_left 0 _), min_le_left _ _,
        le_min (by norm_num) (le_max_left 0 _), min_le_left _ _,
        le_min (by norm_num) (le_max_left 0 _), min_le_left _ _,
        le_min (by norm_num) (le_max_left 15 _), min_le_left _ _,
        le_min (by norm_num) (le_max_left 0 _), min_le_left _ _,
        le_max_left 0 _, le_max_left 0 _, le_max_left 50 _⟩
    · exact ih (i + 1) _ _ m h

/-- Claim C4: for every range key and every draw stream, every
generated sample has cpu, memory, disk and network in [0, 100] and
temperature in [15, 50]. -/
theorem generateMockData_bounds (tr : String) (now : Int) (r : Rng) (m : ServerMetric)
    (hm : m ∈ generateMockData tr now r) :
    0 ≤ m.cpu ∧ m.cpu ≤ 100 ∧ 0 ≤ m.memory ∧ m.memory ≤ 100 ∧ 0 ≤ m.disk ∧ m.disk ≤ 100 ∧
      0 ≤ m.network ∧ m.network ≤ 100 ∧ 15 ≤ m.temperature ∧ m.temperature ≤ 50 := by
  rw [generateMockData] at hm
  have h := genLoop_bounds _ _ _ _ _ _ _ _ m hm
  exact ⟨h.1, h.2.1, h.2.2.1, h.2.2.2.1, h.2.2.2.2.1, h.2.2.2.2.2.1,
    h.2.2.2.2.2.2.2.2.1, h.2.2.2.2.2.2.2.2.2.1, h.2.2.2.2.2.2.1, h.2.2.2.2.2.2.2.1⟩

/-- Concrete instance of claim C4's theorem on the first sample of a
7-day run. -/
theorem generateMockData_bounds_instance :
    0 ≤ sample7.cpu ∧ sample7.cpu ≤ 100 ∧ 0 ≤ sample7.memory ∧ sample7.memory ≤ 100 ∧
      0 ≤ sample7.disk ∧ sample7.disk ≤ 100 ∧ 0 ≤ sample7.network ∧ sample7.network ≤ 100 ∧
      15 ≤ sample7.temperature ∧ sample7.temperature ≤ 50 :=
  generateMockData_bounds "7d" 0 rng0 sample7 (by decide)

/-- Claim C10: errors, users and response time are clamped only from
below (errors ≥ 0, users ≥ 0, responseTime ≥ 50), and no upper bound
is enforced: some draw stream produces a 24h sample whose errors
exceed the default critical threshold 15. -/
theorem generateMockData_lower_clamps :
    (∀ (tr : String) (now : Int) (r : Rng) (m : ServerMetric),
        m ∈ generateMockData tr now r →
        0 ≤ m.errors ∧ 0 ≤ m.users ∧ 50 ≤ m.responseTime) ∧
    (∃ (r : Rng) (m : ServerMetric), m ∈ generateMockData "24h" 0 r ∧ 15 < m.errors) := by
  constructor
  · intro tr now r m hm
    rw [generateMockData] at hm
    have h := genLoop_bounds _ _ _ _ _ _ _ _ m hm
    exact ⟨h.2.2.2.2.2.2.2.2.2.2.1, h.2.2.2.2.2.2.2.2.2.2.2.1, h.2.2.2.2.2.2.2.2.2.2.2.2⟩
  · exact ⟨rngMax, sampleMax, by decide, by decide⟩

/-- Concrete instance of claim C10's theorem on the first sample of a
7-day run. -/
theorem generateMockData_lower_clamps_instance :
    0 ≤ sample7.errors ∧ 0 ≤ sample7.users ∧ 50 ≤ sample7.responseTime :=
  generateMockData_lower_clamps.1 "7d" 0 rng0 sample7 (by decide)

/-- Toggling the servers panel preserves the exclusion bound. -/
theorem toggleServersPanel_count (s : DashboardState) (h : panelCount s ≤ 1) :
    panelCount (toggleServersPanel s) ≤ 1 := by
  unfold panelCount at h
  unfold toggleServersPanel panelCount
  cases hsv : s.showServersPanel <;> cases hal : s.showAlertsPanel <;>
    cases hus : s.showUsersPanel <;> cases hrp : s.showReportsPanel <;> simp_all

/-- Toggling the alerts panel preserves the exclusion bound. -/
theorem toggleAlertsPanel_count (s : DashboardState) (h : panelCount s ≤ 1) :
    panelCount (toggleAlertsPanel s) ≤ 1 := by
  unfold panelCount at h
  unfold toggleAlertsPanel panelCount
  cases hsv : s.showServersPanel <;> cases hal : s.showAlertsPanel <;>
    cases hus : s.showUsersPanel <;> cases hrp : s.showReportsPanel <;> simp_all

/-- Toggling the users panel preserves the exclusion bound. -/
theorem toggleUsersPanel_count (s : DashboardState) (h : panelCount s ≤ 1) :
    panelCount (toggleUsersPanel s) ≤ 1 := by
  unfold panelCount at h
  unfold toggleUsersPanel panelCount
  cases hsv : s.showServersPanel <;> cases hal : s.showAlertsPanel <;>
    cases hus : s.showUsersPanel <;> cases hrp : s.showReportsPanel <;> simp_all

/-- Toggling the reports panel preserves the exclusion bound. -/
theorem toggleReportsPanel_count (s : DashboardState) (h : panelCount s ≤ 1) :
    panelCount (toggleReportsPanel s) ≤ 1 := by
  unfold panelCount at h
  unfold toggleReportsPanel panelCount
  cases hsv : s.showServersPanel <;> cases hal : s.showAlertsPanel <;>
    cases hus : s.showUsersPanel <;> cases hrp : s.showReportsPanel <;> simp_all

/-- Every dashboard event preserves the exclusion bound. -/
theorem applyEvent_count (e : Event) (s : DashboardState) (h : panelCount s ≤ 1) :
    panelCount (applyEvent e s) ≤ 1 := by
  cases e <;>
    first
      | exact toggleServersPanel_count s h
      | exact toggleAlertsPanel_count s h
      | exact toggleUsersPanel_count s h
      | exact toggleReportsPanel_count s h
      | exact h

/-- Event sequences preserve the exclusion bound. -/
theorem applyEvents_count (evs : List Event) (s : DashboardState) (h : panelCount s ≤ 1) :
    panelCount (applyEvents evs s) ≤ 1 := by
  induction evs generalizing s with
  | nil => exact h
  | cons e t ih => exact ih (applyEvent e s) (applyEvent_count e s h)

/-- Claim C2: in every state reachable from the initial dashboard
state, at most one of the four right-hand panels is visible; toggling
a panel ON forces the other three OFF; toggling the active panel OFF
leaves all four OFF; and the sidebar, notifications, settings and
expanded-widget flags are untouched by the four panel toggles. -/
theorem panel_mutual_exclusion :
    (∀ (now : Int) (evs : List Event), panelCount (applyEvents evs (initState now)) ≤ 1) ∧
    (∀ s : DashboardState, s.showServersPanel = false →
      (toggleServersPanel s).showServersPanel = true ∧
        (toggleServersPanel s).showAlertsPanel = false ∧
        (toggleServersPanel s).showUsersPanel = false ∧
        (toggleServersPanel s).showReportsPanel = false) ∧
    (∀ s : DashboardState, s.showAlertsPanel = false →
      (toggleAlertsPanel s).showAlertsPanel = true ∧
        (toggleAlertsPanel s).showServersPanel = false ∧
        (toggleAlertsPanel s).showUsersPanel = false ∧
        (toggleAlertsPanel s).showReportsPanel = false) ∧
    (∀ s : DashboardState, s.showUsersPanel = false →
      (toggleUsersPanel s).showUsersPanel = true ∧
        (toggleUsersPanel s).showServersPanel = false ∧
        (toggleUsersPanel s).showAlertsPanel = false ∧
        (toggleUsersPanel s).showReportsPanel = false) ∧
    (∀ s : DashboardState, s.showReportsPanel = false →
      (toggleReportsPanel s).showReportsPanel = true ∧
        (toggleReportsPanel s).showServersPanel = false ∧
        (toggleReportsPanel s).showAlertsPanel = false ∧
        (toggleReportsPanel s).showUsersPanel = false) ∧
    (∀ s : DashboardState, panelCount s ≤ 1 → s.showServersPanel = true →
      (toggleServersPanel s).showServersPanel = false ∧
        (toggleServersPanel s).showAlertsPanel = false ∧
        (toggleServersPanel s).showUsersPanel = false ∧
        (toggleServersPanel s).showReportsPanel = false) ∧
    (∀ s : DashboardState, panelCount s ≤ 1 → s.showAlertsPanel = true →
      (toggleAlertsPanel s).showServersPanel = false ∧
        (toggleAlertsPanel s).showAlertsPanel = false ∧
        (toggleAlertsPanel s).showUsersPanel = false ∧
        (toggleAlertsPanel s).showReportsPanel = false) ∧
    (∀ s : DashboardState, panelCount s ≤ 1 → s.showUsersPanel = true →
      (toggleUsersPanel s).showServersPanel = false ∧
        (toggleUsersPanel s).showAlertsPanel = false ∧
        (toggleUsersPanel s).showUsersPanel = false ∧
        (toggleUsersPanel s).showReportsPanel = false) ∧
    (∀ s : DashboardState, panelCount s ≤ 1 → s.showReportsPanel = true →
      (toggleReportsPanel s).showServersPanel = false ∧
        (toggleReportsPanel s).showAlertsPanel = false ∧
        (toggleReportsPanel s).showUsersPanel = false ∧
        (toggleReportsPanel s).showReportsPanel = false) ∧
    (∀ s : DashboardState,
      (toggleServersPanel s).showSidebar = s.showSidebar ∧
        (toggleServersPanel s).showNotifications = s.showNotifications ∧
        (toggleServersPanel s).showSettings = s.showSettings ∧
        (toggleServersPanel s).expandedWidget = s.expandedWidget) ∧
    (∀ s : DashboardState,
      (toggleAlertsPanel s).showSidebar = s.showSidebar ∧
        (toggleAlertsPanel s).showNotifications = s.showNotifications ∧
        (toggleAlertsPanel s).showSettings = s.showSettings ∧
        (toggleAlertsPanel s).expandedWidget = s.expandedWidget) ∧
    (∀ s : DashboardState,
      (toggleUsersPanel s).showSidebar = s.showSidebar ∧
        (toggleUsersPanel s).showNotifications = s.showNotifications ∧
        (toggleUsersPanel s).showSettings = s.showSettings ∧
        (toggleUsersPanel s).expandedWidget = s.expandedWidget) ∧
    (∀ s : DashboardState,
      (toggleReportsPanel s).showSidebar = s.showSidebar ∧
        (toggleReportsPanel s).showNotifications = s.showNotifications ∧
        (toggleReportsPanel s).showSettings = s.showSettings ∧
        (toggleReportsPanel s).expandedWidget = s.expandedWidget) := by
  refine ⟨fun now evs => applyEvents_count evs (initState now) (by simp [panelCount, initState]),
    fun s h => by simp [toggleServersPanel, h],
    fun s h => by simp [toggleAlertsPanel, h],
    fun s h => by simp [toggleUsersPanel, h],
    fun s h => by simp [toggleReportsPanel, h],
    fun s hc h => ?_, fun s hc h => ?_, fun s hc h => ?_, fun s hc h => ?_,
    fun s => by unfold toggleServersPanel; split_ifs <;> exact ⟨rfl, rfl, rfl, rfl⟩,
    fun s => by unfold toggleAlertsPanel; split_ifs <;> exact ⟨rfl, rfl, rfl, rfl⟩,
    fun s => by unfold toggleUsersPanel; split_ifs <;> exact ⟨rfl, rfl, rfl, rfl⟩,
    fun s => by unfold toggleReportsPanel; split_ifs <;> exact ⟨rfl, rfl, rfl, rfl⟩⟩
  · unfold panelCount at hc
    rw [h] at hc
    cases hal : s.showAlertsPanel <;> cases hus : s.showUsersPanel <;>
      cases hrp : s.showReportsPanel <;> simp_all [toggleServersPanel]
  · unfold panelCount at hc
    rw [h] at hc
    cases hsv : s.showServersPanel <;> cases hus : s.showUsersPanel <;>
      cases hrp : s.showReportsPanel <;> simp_all [toggleAlertsPanel]
  · unfold panelCount at hc
    rw [h] at hc
    cases hsv : s.showServersPanel <;> cases hal : s.showAlertsPanel <;>
      cases hrp : s.showReportsPanel <;> simp_all [toggleUsersPanel]
  · unfold panelCount at hc
    rw [h] at hc
    cases hsv : s.showServersPanel <;> cases hal : s.showAlertsPanel <;>
      cases hus : s.showUsersPanel <;> simp_all [toggleReportsPanel]

/-- Concrete instance of claim C2's theorem: turning on servers then
alerts from the initial state keeps at most one panel visible, the
alerts toggle forces the servers panel off, and toggling alerts again
leaves all four panels off. -/
theorem panel_mutual_exclusion_instance :
    panelCount (applyEvents [Event.servers, Event.alertsP] (initState 0)) ≤ 1 ∧
      (toggleAlertsPanel (toggleServersPanel (initState 0))).showAlertsPanel = true ∧
      (toggleAlertsPanel (toggleServersPanel (initState 0))).showServersPanel = false ∧
      (toggleAlertsPanel (toggleAlertsPanel (toggleServersPanel (initState 0)))).showAlertsPanel
        = false ∧
      (toggleAlertsPanel (toggleAlertsPanel (toggleServersPanel (initState 0)))).showServersPanel
        = false := by
  have h1 := panel_mutual_exclusion.1 0 [Event.servers, Event.alertsP]
  have h2 := panel_mutual_exclusion.2.2.1 (toggleServersPanel (initState 0)) (by decide)
  have h3 := panel_mutual_exclusion.2.2.2.2.2.2.1
    (toggleAlertsPanel (toggleServersPanel (initState 0))) (by decide) (by decide)
  exact ⟨h1, h2.1, h2.2.1, h3.2.1, h3.1⟩

/-- Acknowledging an id that appears nowhere in a list leaves the list
unchanged. -/
theorem map_ack_id_of_not_mem (l : List Alert) (id : String) (h : ∀ x ∈ l, x.id ≠ id) :
    l.map (fun a => if a.id = id then { a with acknowledged := true } else a) = l := by
  induction l with
  | nil => rfl
  | cons x t ih =>
    simp only [List.map_cons]
    rw [if_neg (h x (List.mem_cons_self x t)),
      ih (fun y hy => h y (List.mem_cons_of_mem x hy))]

/-- Dismissing an id that appears nowhere in a list leaves the list
unchanged. -/
theorem map_dismiss_id_of_not_mem (l : List Alert) (id : String) (h : ∀ x ∈ l, x.id ≠ id) :
    l.map (fun a => if a.id = id then { a with dismissed := true } else a) = l := by
  induction l with
  | nil => rfl
  | cons x t ih =>
    simp only [List.map_cons]
    rw [if_neg (h x (List.mem_cons_self x t)),
      ih (fun y hy => h y (List.mem_cons_of_mem x hy))]

/-- After dismissing an id, no undismissed survivor carries that id. -/
theorem dismissed_map_filter (l : List Alert) (id : String) (b : Alert)
    (hb : b ∈ (l.map (fun a => if a.id = id then { a with dismissed := true } else a)).filter
      (fun a => !a.dismissed)) : b.id ≠ id := by
  rcases List.mem_filter.mp hb with ⟨hmem, hflag⟩
  rcases List.mem_map.mp hmem with ⟨x, hx, hfx⟩
  by_cases hxid : x.id = id
  · rw [if_pos hxid] at hfx
    rw [← hfx] at hflag
    simp at hflag
  · rw [if_neg hxid] at hfx
    rw [← hfx]
    exact hxid

/-- Acknowledging the one unacknowledged, undismissed alert with a
given id lowers the count of notifying alerts by exactly one (ids
assumed pairwise distinct). -/
theorem countP_notif_ack (id : String) : ∀ (l : List Alert) (a : Alert),
    a ∈ l → a.id = id → a.acknowledged = false → a.dismissed = false →
    (l.map Alert.id).Nodup →
    (l.map (fun x => if x.id = id then { x with acknowledged := true } else x)).countP
        (fun x => !x.acknowledged && !x.dismissed) + 1
      = l.countP (fun x => !x.acknowledged && !x.dismissed) := by
  intro l
  induction l with
  | nil => intro a h; simp at h
  | cons x t ih =>
    intro a hmem hid hack hdis hnd
    rw [List.map_cons, List.nodup_cons] at hnd
    rcases hnd with ⟨hx, ht⟩
    rcases List.mem_cons.mp hmem with rfl | hmt
    · have hrest : ∀ y ∈ t, y.id ≠ id := by
        intro y hy hcon
        exact hx (hid ▸ hcon ▸ List.mem_map_of_mem Alert.id hy)
      rw [List.map_cons, List.countP_cons, List.countP_cons, if_pos hid,
        map_ack_id_of_not_mem t id hrest]
      simp [hack, hdis]
    · have hxid : x.id ≠ id := by
        intro hcon
        exact hx (by rw [hcon, ← hid]; exact List.mem_map_of_mem Alert.id hmt)
      rw [List.map_cons, List.countP_cons, List.countP_cons, if_neg hxid]
      have hrec := ih a hmt hid hack hdis ht
      omega

/-- Claim C6: dismissing an existing alert keeps the collection size
unchanged (never physically deleted), leaves an alert with that id and
dismissed = true in the full collection, and removes the id from the
activeAlerts view. -/
theorem dismissAlert_soft_delete (s : DashboardState) (id : String) (a : Alert)
    (ha : a ∈ s.alerts) (hid : a.id = id) :
    (dismissAlert id s).alerts.length = s.alerts.length ∧
    (∃ a2, a2 ∈ (dismissAlert id s).alerts ∧ a2.id = id ∧ a2.dismissed = true) ∧
    (∀ b, b ∈ activeAlerts (dismissAlert id s) → b.id ≠ id) := by
  refine ⟨by simp [dismissAlert], ?_, ?_⟩
  · refine ⟨{ a with dismissed := true }, ?_, hid, rfl⟩
    have himg : (if a.id = id then { a with dismissed := true } else a)
        = { a with dismissed := true } := if_pos hid
    exact himg ▸ List.mem_map_of_mem _ ha
  · intro b hb
    exact dismissed_map_filter s.alerts id b hb

/-- Concrete instance of claim C6's theorem on the initial mock
alerts. -/
theorem dismissAlert_soft_delete_instance :
    (dismissAlert "alert-001" (initState 0)).alerts.length = (initState 0).alerts.length ∧
      (∃ a2, a2 ∈ (dismissAlert "alert-001" (initState 0)).alerts ∧ a2.id = "alert-001" ∧
        a2.dismissed = true) := by
  have h := dismissAlert_soft_delete (initState 0) "alert-001" alertA (by decide) rfl
  exact ⟨h.1, h.2.1⟩

/-- Claim C7: notificationCount counts exactly the alerts neither
acknowledged nor dismissed; acknowledging such an alert (ids pairwise
distinct) lowers the count by exactly one, and the subsequent
dismissal excludes the id from activeAlerts. -/
theorem notificationCount_acknowledge (s : DashboardState) (id : String) (a : Alert)
    (hmem : a ∈ s.alerts) (hid : a.id = id) (hack : a.acknowledged = false)
    (hdis : a.dismissed = false) (hnd : (s.alerts.map Alert.id).Nodup) :
    notificationCount s = (s.alerts.filter (fun x => !x.acknowledged && !x.dismissed)).length ∧
    notificationCount (acknowledgeAlert id s) + 1 = notificationCount s ∧
    (∀ b, b ∈ activeAlerts (dismissAlert id (acknowledgeAlert id s)) → b.id ≠ id) := by
  refine ⟨rfl, ?_, ?_⟩
  · have h := countP_notif_ack id s.alerts a hmem hid hack hdis hnd
    simpa [notificationCount, acknowledgeAlert, ← List.countP_eq_length_filter] using h
  · intro b hb
    exact dismissed_map_filter (acknowledgeAlert id s).alerts id b hb

/-- Concrete instance of claim C7's theorem on the initial mock
alerts. -/
theorem notificationCount_acknowledge_instance :
    notificationCount (acknowledgeAlert "alert-001" (initState 0)) + 1
      = notificationCount (initState 0) :=
  (notificationCount_acknowledge (initState 0) "alert-001" alertA
    (by decide) rfl rfl rfl (by decide)).2.1

/-- Claim C9: acknowledging or dismissing an id that matches no alert
is a silent no-op, returning the state unchanged. -/
theorem missing_alert_noop (s : DashboardState) (id : String)
    (h : ∀ a ∈ s.alerts, a.id ≠ id) :
    acknowledgeAlert id s = s ∧ dismissAlert id s = s := by
  constructor
  · unfold acknowledgeAlert
    rw [map_ack_id_of_not_mem s.alerts id h]
  · unfold dismissAlert
    rw [map_dismiss_id_of_not_mem s.alerts id h]

/-- Concrete instance of claim C9's theorem: an unknown id leaves the
initial state untouched. -/
theorem missing_alert_noop_instance :
    acknowledgeAlert "alert-999" (initState 0) = initState 0 ∧
      dismissAlert "alert-999" (initState 0) = initState 0 :=
  missing_alert_noop (initState 0) "alert-999" (by decide)

/-- Claim C8: updateThreshold(key, level, value) sets exactly the
named level of the named metric's pair; the other level, every other
metric's pair, and every non-threshold field of the dashboard state
are unchanged; in particular updateThreshold("cpu","warning",80)
makes thresholds.cpu.warning equal 80. -/
theorem updateThreshold_frame (s : DashboardState) (key : ThresholdKey)
    (level : ThresholdLevel) (value : Int) :
    getLevel (getPair (updateThreshold key level value s).thresholds key) level = value ∧
    (∀ l2, l2 ≠ level →
      getLevel (getPair (updateThreshold key level value s).thresholds key) l2
        = getLevel (getPair s.thresholds key) l2) ∧
    (∀ k2, k2 ≠ key →
      getPair (updateThreshold key level value s).thresholds k2 = getPair s.thresholds k2) ∧
    (updateThreshold key level value s).darkMode = s.darkMode ∧
    (updateThreshold key level value s).timeRange = s.timeRange ∧
    (updateThreshold key level value s).showSidebar = s.showSidebar ∧
    (updateThreshold key level value s).alerts = s.alerts ∧
    (updateThreshold key level value s).showNotifications = s.showNotifications ∧
    (updateThreshold key level value s).showSettings = s.showSettings ∧
    (updateThreshold key level value s).expandedWidget = s.expandedWidget ∧
    (updateThreshold key level value s).activeSidebarItem = s.activeSidebarItem ∧
    (updateThreshold key level value s).showServersPanel = s.showServersPanel ∧
    (updateThreshold key level value s).showAlertsPanel = s.showAlertsPanel ∧
    (updateThreshold key level value s).showUsersPanel = s.showUsersPanel ∧
    (updateThreshold key level value s).showReportsPanel = s.showReportsPanel ∧
    (updateThreshold key level value s).isLandingPage = s.isLandingPage ∧
    (updateThreshold ThresholdKey.cpu ThresholdLevel.warning 80 s).thresholds.cpu.warning = 80 := by
  refine ⟨?_, ?_, ?_, rfl, rfl, rfl, rfl, rfl, rfl, rfl, rfl, rfl, rfl, rfl, rfl, rfl, rfl⟩
  · cases key <;> cases level <;> rfl
  · intro l2 hl2
    cases level <;> cases l2 <;> first | exact absurd rfl hl2 | (cases key <;> rfl)
  · intro k2 hk2
    cases key <;> cases k2 <;> first | exact absurd rfl hk2 | (cases level <;> rfl)

/-- Concrete instance of claim C8's theorem at the initial state. -/
theorem updateThreshold_frame_instance :
    getLevel (getPair (updateThreshold ThresholdKey.cpu ThresholdLevel.warning 80
        (initState 0)).thresholds ThresholdKey.cpu) ThresholdLevel.warning = 80 ∧
      getLevel (getPair (updateThreshold ThresholdKey.cpu ThresholdLevel.warning 80
          (initState 0)).thresholds ThresholdKey.cpu) ThresholdLevel.critical
        = getLevel (getPair (initState 0).thresholds ThresholdKey.cpu) ThresholdLevel.critical ∧
      getPair (updateThreshold ThresholdKey.cpu ThresholdLevel.warning 80
          (initState 0)).thresholds ThresholdKey.memory
        = getPair (initState 0).thresholds ThresholdKey.memory := by
  have h := updateThreshold_frame (initState 0) ThresholdKey.cpu ThresholdLevel.warning 80
  exact ⟨h.1, h.2.1 ThresholdLevel.critical (by decide), h.2.2.1 ThresholdKey.memory (by decide)⟩
